import Mathlib

/-!
# Birthday-card saga: shallow embedding and verification

A shallow embedding of the `demo_birthdaycard` repository's core logic:

* the saga orchestrator `generateBirthdayCard`
  (src/app/api/generate/generate-birthday-card.ts),
* the RSVP webhook payload extraction performed inside that orchestrator,
* the image step `generateImageStep` (src/app/api/generate/generate-image.ts)
  and the base64-attachment extraction of `sendRecipientEmail`
  (src/unnamed/part_002),
* the three HTTP entry-route variants present in the repository:
  the simplified route (src/app/api/generate/route.ts), the full route
  (src/unnamed/part_000), and the asynchronous route embedded in
  src/components/form.tsx (lines 386-442),
* a timeline model of the workflow's suspension points for the
  sleep-gating property.

JavaScript promises are modelled as `Except` values; `Promise.all` over a
list resolves with the results *in input index order* (standard JS
semantics), which we model by mapping over the input list.  Wall-clock
time, which JS results never depend on for `Promise.all` ordering, is kept
as an explicit `resolveTime` field in the environment so that
order-independence is a provable statement rather than an artifact.
-/

set_option autoImplicit false

namespace BirthdayCard

/-! ## A small JSON value model (for HTTP request/response bodies) -/

/-- JSON values, as produced by `NextResponse.json` and consumed from
request bodies. -/
inductive Json where
  | str (s : String)
  | bool (b : Bool)
  | num (n : Nat)
  | null
  | arr (xs : List Json)
  | obj (fields : List (String × Json))

/-- Look up a field of a JSON object (first occurrence); `none` for
missing fields and for non-objects (JS `undefined`). -/
def jsonField (j : Json) (k : String) : Option Json :=
  match j with
  | .obj fields => (fields.find? (fun p => p.fst == k)).map Prod.snd
  | _ => none

/-- Whether a JSON object has a field named `k`. -/
def hasField (j : Json) (k : String) : Bool :=
  (jsonField j k).isSome

/-- The string value of field `k`, when the field is a JSON string. -/
def getStr (j : Json) (k : String) : Option String :=
  match jsonField j k with
  | some (.str s) => some s
  | _ => none

/-- The boolean value of field `k`, when the field is a JSON boolean. -/
def getBool (j : Json) (k : String) : Option Bool :=
  match jsonField j k with
  | some (.bool b) => some b
  | _ => none

/-! ## Webhook callback payload extraction

From generate-birthday-card.ts lines 88-95: the resolved webhook request's
URL is parsed and `reply` / `email` are read from its query string with
JavaScript `||` defaulting (which also replaces the empty string, since
`''` is falsy). -/

/-- A resolved webhook callback request, reduced to the query parameters
of its URL (the only part the orchestrator reads). -/
structure WebhookRequest where
  params : List (String × String)
  deriving DecidableEq, Repr

/-- `url.searchParams.get(k)`: the first value bound to `k`, `null`
(`none`) when absent. -/
def getParam (params : List (String × String)) (k : String) : Option String :=
  (params.find? (fun p => p.fst == k)).map Prod.snd

/-- JavaScript `v || d` on a nullable string: the default replaces both
`null` and the (falsy) empty string. -/
def jsOr (v : Option String) (d : String) : String :=
  match v with
  | none => d
  | some s => if s = "" then d else s

/-- An RSVP reply as recorded by the orchestrator:
`{ email, reply }`. -/
structure RsvpReply where
  email : String
  reply : String
  deriving DecidableEq, Repr

/-- Payload extraction from a resolved webhook request
(generate-birthday-card.ts lines 89-93):
`reply = url.searchParams.get('reply') || 'no-response'`,
`email = url.searchParams.get('email') || 'unknown'`. -/
def parseRsvpReply (req : WebhookRequest) : RsvpReply :=
  { email := jsOr (getParam req.params "email") "unknown"
  , reply := jsOr (getParam req.params "reply") "no-response" }

/-! ## The saga orchestrator -/

/-- Thrown JavaScript error values reaching the route's `catch`: either a
`FatalError` from the workflow runtime or an ordinary `Error`; both carry
a message. -/
inductive JsError where
  | fatalError (msg : String)
  | error (msg : String)
  deriving DecidableEq, Repr

/-- The terminal value of the workflow:
`return { image, text, rsvpReplies }`. -/
structure WorkflowResult where
  image : String
  text : String
  rsvpReplies : List RsvpReply
  deriving DecidableEq, Repr

/-- Arguments of the `sendRecipientEmail` step (src/unnamed/part_002). -/
structure RecipientEmailParams where
  recipientEmail : String
  cardImage : String
  cardText : String
  rsvpReplies : List RsvpReply
  deriving DecidableEq, Repr

/-- The `requestRsvp` step's return value (src/unnamed/part_001 line 40):
`{ email, success: true }`. -/
structure RsvpSendReceipt where
  email : String
  success : Bool
  deriving DecidableEq, Repr

/-- The input of `generateBirthdayCard(prompt, recipientEmail,
rsvpEmails, eventDate?)`.  `eventDate` is a timestamp in seconds. -/
structure BirthdayCardInput where
  prompt : String
  recipientEmail : String
  rsvpEmails : List String
  eventDate : Option Nat
  deriving DecidableEq, Repr

/-- The environment the orchestrator runs against: the awaited outcome of
each step, the URL of each created webhook (indexed by guest position),
the resolved callback request of each webhook, and the wall-clock instant
each webhook resolved.  `resolveTime` is recorded but read by no
computation, exactly as in the source, where `Promise.all`'s output never
depends on resolution timing. -/
structure WorkflowEnv where
  generatePrompts : String → Except JsError (String × String)
  generateImage : String → Except JsError String
  generateMessage : String → Except JsError String
  requestRsvp : String → String → Except JsError RsvpSendReceipt
  webhookUrl : Nat → String
  webhookResult : Nat → WebhookRequest
  resolveTime : Nat → Nat
  sendRecipientEmail : RecipientEmailParams → Except JsError Unit

/-- `Promise.all` over two promises: resolves with the pair when both
resolve, rejects when either rejects.  (When both reject, JS picks the
first in time; we determinise to the left one — no claim depends on the
identity of the error in that case.) -/
def promiseAll2 {α β : Type} (a : Except JsError α) (b : Except JsError β) :
    Except JsError (α × β) := do
  let x ← a
  let y ← b
  pure (x, y)

/-- STEP 3 fan-out: `rsvpEmails.map((email, i) => requestRsvp(email,
webhooks[i].url))` awaited with `Promise.all`. -/
def requestAllRsvps (env : WorkflowEnv) (rsvpEmails : List String) :
    Except JsError (List RsvpSendReceipt) :=
  rsvpEmails.enum.mapM (fun p => env.requestRsvp p.snd (env.webhookUrl p.fst))

/-- STEP 3 fan-in: `Promise.all(webhooks.map(webhook =>
webhook.then(parse)))`.  Webhook waits never reject; `Promise.all`
resolves with the parsed replies in input index order (guest `i`'s parsed
callback at position `i`), regardless of the order the callbacks
arrived. -/
def collectRsvpReplies (env : WorkflowEnv) (n : Nat) : List RsvpReply :=
  (List.range n).map (fun i => parseRsvpReply (env.webhookResult i))

/-- The RSVP phase (generate-birthday-card.ts lines 69-103): skipped when
`rsvpEmails` is empty, otherwise create one webhook per guest, send the
RSVP emails, then await all callbacks. -/
def rsvpPhase (env : WorkflowEnv) (rsvpEmails : List String) :
    Except JsError (List RsvpReply) :=
  if rsvpEmails.length > 0 then
    match requestAllRsvps env rsvpEmails with
    | .error e => .error e
    | .ok _ => .ok (collectRsvpReplies env rsvpEmails.length)
  else
    .ok []

deriving instance DecidableEq for Except

/-- The outcome of a workflow run: its terminal result (or thrown error —
the workflow's own `catch` rethrows unchanged) together with whether the
`sendRecipientEmail` step was ever invoked. -/
structure WfOutcome where
  result : Except JsError WorkflowResult
  notifyInvoked : Bool
  deriving DecidableEq, Repr

/-- The saga orchestrator `generateBirthdayCard`
(src/app/api/generate/generate-birthday-card.ts): split the prompt, run
image and message generation in parallel, fan out / fan in the RSVP
webhooks when guests are present, sleep (time handled by the timeline
model below; `sleep` never rejects), then send the recipient email.  Any
step rejection aborts the remainder and is rethrown. -/
def generateBirthdayCard (env : WorkflowEnv) (input : BirthdayCardInput) :
    WfOutcome :=
  match env.generatePrompts input.prompt with
  | .error e => ⟨.error e, false⟩
  | .ok (textPrompt, imagePrompt) =>
    match promiseAll2 (env.generateImage imagePrompt)
        (env.generateMessage textPrompt) with
    | .error e => ⟨.error e, false⟩
    | .ok (image, text) =>
      match rsvpPhase env input.rsvpEmails with
      | .error e => ⟨.error e, false⟩
      | .ok rsvpReplies =>
        match env.sendRecipientEmail
            ⟨input.recipientEmail, image, text, rsvpReplies⟩ with
        | .error e => ⟨.error e, true⟩
        | .ok _ => ⟨.ok ⟨image, text, rsvpReplies⟩, true⟩

/-! ## The image step and the attachment extraction

`generateImageStep` (src/app/api/generate/generate-image.ts) formats the
provider's base64 output as a data URI; `sendRecipientEmail`
(src/unnamed/part_002 line 44) later recovers the base64 payload with
`cardImage.split(',')[1]`. -/

/-- The provider response `generateImage` returns inside the step: an
optional base64 string and an optional mime type.  (`image?.base64` and
`image.mimeType` are both read with falsy checks.) -/
structure GeneratedImage where
  base64 : Option String
  mimeType : Option String
  deriving DecidableEq, Repr

/-- The step `generateImageStep`: throws when `image?.base64` is falsy
(absent or empty), otherwise returns
`data:${image.mimeType || 'image/png'};base64,${image.base64}`. -/
def generateImageStep (img : GeneratedImage) : Except JsError String :=
  match img.base64 with
  | none => .error (.error "Failed to generate image")
  | some b64 =>
    if b64 = "" then .error (.error "Failed to generate image")
    else
      .ok ("data:" ++ jsOr img.mimeType "image/png" ++ ";base64," ++ b64)

/-- JavaScript `s.split(sep)` for a one-character separator, at the
character-list level. -/
def splitCharAux (sep : Char) : List Char → List Char → List (List Char)
  | [], acc => [acc.reverse]
  | c :: cs, acc =>
    if c = sep then acc.reverse :: splitCharAux sep cs []
    else splitCharAux sep cs (c :: acc)

/-- JavaScript `s.split(sep)` for a one-character separator. -/
def jsSplit (sep : Char) (s : String) : List String :=
  (splitCharAux sep s.data []).map String.mk

/-- `sendRecipientEmail`'s extraction of the attachment content
(src/unnamed/part_002 line 44): `cardImage.split(',')[1]`, `none` when
the index is out of range (JS `undefined`). -/
def sendRecipientEmailBase64Content (cardImage : String) : Option String :=
  (jsSplit ',' cardImage).get? 1

/-! ## Timeline model of the workflow's suspension points

`generateBirthdayCard` hard-codes `const sleepDuration = '10 seconds'`
(generate-birthday-card.ts line 31) and passes it to `sleep` before the
`sendRecipientEmail` step; the runtime's timer resolves no earlier than
the requested duration after the sleep starts. -/

/-- The duration string the workflow passes to `sleep`, as a function of
the run's `eventDate` input: the source ignores `eventDate` and always
uses the constant `'10 seconds'` (generate-birthday-card.ts lines 29-31,
"For demo purposes, use 10 seconds instead of actual date"). -/
def sleepDurationArg (eventDate : Option Nat) : String :=
  "10 seconds"

/-- Seconds denoted by a duration string, on the one value the workflow
uses. -/
def durationSeconds (s : String) : Nat :=
  if s = "10 seconds" then 10 else 0

/-- Wall-clock instants (in seconds) of one run's suspension points:
workflow start, completion of the RSVP fan-in (equal to start when the
phase is skipped), the timer's resolution, and the invocation of
`sendRecipientEmail`. -/
structure Timeline where
  startAt : Nat
  rsvpDoneAt : Nat
  sleepWakeAt : Nat
  notifyAt : Nat
  deriving DecidableEq, Repr

/-- A timeline is realisable for a given run input exactly when it
respects the workflow's order of awaits: the RSVP fan-in completes after
start, `sleep(sleepDuration)` resolves no earlier than the requested
duration after it begins (immediately after the fan-in), and
`sendRecipientEmail` is invoked only after the sleep resolves. -/
def validTimeline (input : BirthdayCardInput) (tl : Timeline) : Prop :=
  tl.startAt ≤ tl.rsvpDoneAt ∧
  tl.rsvpDoneAt + durationSeconds (sleepDurationArg input.eventDate) ≤
    tl.sleepWakeAt ∧
  tl.sleepWakeAt ≤ tl.notifyAt

instance (input : BirthdayCardInput) (tl : Timeline) :
    Decidable (validTimeline input tl) := by
  unfold validTimeline
  infer_instance

/-! ## The HTTP entry routes

The repository carries three variants of `POST /api/generate`:

* `POSTSimple` — src/app/api/generate/route.ts, the "Simplified API route
  (POC)": validates only `prompt`, starts the workflow with `[prompt]`,
  and always awaits the terminal result.
* `POSTFull` — src/unnamed/part_000: validates `prompt` and
  `recipientEmail`, starts the workflow with all parameters, and always
  awaits the terminal result.
* `POSTAsync` — the route document embedded in src/components/form.tsx
  (lines 386-442): same validation and start as `POSTFull`, but when
  `rsvpEmails` is non-empty it responds `{status: 'started', ...}`
  without awaiting the terminal result.

Request bodies are modelled with `prompt` and `recipientEmail` as raw
JSON fields (their validation inspects type and falsiness) and
`rsvpEmails` / `eventDate` in already-typed form: the claims under
verification only exercise bodies whose `rsvpEmails` is absent or an
array of strings and whose `eventDate` is absent or a valid timestamp. -/

/-- A parsed request body. -/
structure RequestBody where
  prompt : Option Json
  recipientEmail : Option Json
  rsvpEmails : Option (List String)
  eventDate : Option Nat

/-- The argument array a route passes to `start(generateBirthdayCard,
args)`; fields the simplified route omits are `undefined`
(`none` / `[]`). -/
structure StartCall where
  prompt : String
  recipientEmail : Option String
  rsvpEmails : List String
  eventDate : Option Nat
  deriving DecidableEq, Repr

/-- The handle `start` returns: the run identifier and the (awaitable)
terminal value of the run. -/
structure RunHandle where
  workflowId : String
  returnValue : Except JsError WorkflowResult

/-- The workflow runtime as the routes see it: `start` yields a handle. -/
def WorkflowRuntime : Type := StartCall → RunHandle

/-- The guard `if (!x || typeof x !== 'string')` on a request field:
passes exactly the non-empty strings (absent, non-string, and `''` all
fail). -/
def requiredString : Option Json → Option String
  | some (.str s) => if s = "" then none else some s
  | _ => none

/-- An HTTP response: status code and JSON body. -/
structure RouteResponse where
  status : Nat
  body : Json

/-- JSON serialisation of one RSVP reply. -/
def replyToJson (r : RsvpReply) : Json :=
  .obj [("email", .str r.email), ("reply", .str r.reply)]

/-- JSON serialisation of the terminal workflow value, as
`NextResponse.json(values)` emits it. -/
def resultToJson (w : WorkflowResult) : Json :=
  .obj [("image", .str w.image), ("text", .str w.text),
        ("rsvpReplies", .arr (w.rsvpReplies.map replyToJson))]

/-- The shared `catch` block of all three routes: FatalError → 400 with
`fatal: true`, anything else → 500 with `fatal: false`; the body carries
the error message. -/
def catchResponse : JsError → RouteResponse
  | .fatalError msg =>
    ⟨400, .obj [("error", .str msg), ("fatal", .bool true)]⟩
  | .error msg =>
    ⟨500, .obj [("error", .str msg), ("fatal", .bool false)]⟩

/-- The 400 response of the `prompt` validation guard. -/
def promptErrorResponse : RouteResponse :=
  ⟨400, .obj [("error", .str "Prompt is required and must be a string")]⟩

/-- The 400 response of the `recipientEmail` validation guard. -/
def recipientErrorResponse : RouteResponse :=
  ⟨400, .obj [("error", .str "Recipient email is required")]⟩

/-- The simplified route (src/app/api/generate/route.ts): validate
`prompt` only, `start(generateBirthdayCard, [prompt])`, await
`returnValue`, serialise it; thrown errors reach the catch block.
Returns the response together with the list of `start` calls made. -/
def POSTSimple (rt : WorkflowRuntime) (body : RequestBody) :
    RouteResponse × List StartCall :=
  match requiredString body.prompt with
  | none => (promptErrorResponse, [])
  | some prompt =>
    let call : StartCall := ⟨prompt, none, [], none⟩
    match (rt call).returnValue with
    | .ok values => (⟨200, resultToJson values⟩, [call])
    | .error e => (catchResponse e, [call])

/-- The full route (src/unnamed/part_000): validate `prompt` and
`recipientEmail`, start with all parameters (`rsvpEmails` defaulting to
`[]`), always await the terminal result. -/
def POSTFull (rt : WorkflowRuntime) (body : RequestBody) :
    RouteResponse × List StartCall :=
  match requiredString body.prompt with
  | none => (promptErrorResponse, [])
  | some prompt =>
    match requiredString body.recipientEmail with
    | none => (recipientErrorResponse, [])
    | some recipientEmail =>
      let call : StartCall :=
        ⟨prompt, some recipientEmail, body.rsvpEmails.getD [],
         body.eventDate⟩
      match (rt call).returnValue with
      | .ok values => (⟨200, resultToJson values⟩, [call])
      | .error e => (catchResponse e, [call])

/-- The `{status: 'started'}` body of the asynchronous route
(src/components/form.tsx lines 417-422). -/
def startedBody (workflowId : String) : Json :=
  .obj [("status", .str "started"),
        ("message", .str "Workflow started! Check server logs for webhook URLs to simulate RSVP responses."),
        ("workflowId", .str workflowId),
        ("note", .str "The workflow is now waiting for RSVP responses. In a real app, you would poll for status or use a webhook callback.")]

/-- The asynchronous route embedded in src/components/form.tsx (lines
386-442): same validation and start as `POSTFull`; when `rsvpEmails` is
non-empty, respond `{status: 'started', message, workflowId, note}`
without awaiting `returnValue`; otherwise await the terminal result as
the other routes do. -/
def POSTAsync (rt : WorkflowRuntime) (body : RequestBody) :
    RouteResponse × List StartCall :=
  match requiredString body.prompt with
  | none => (promptErrorResponse, [])
  | some prompt =>
    match requiredString body.recipientEmail with
    | none => (recipientErrorResponse, [])
    | some recipientEmail =>
      let rsvpEmails := body.rsvpEmails.getD []
      let call : StartCall :=
        ⟨prompt, some recipientEmail, rsvpEmails, body.eventDate⟩
      let h := rt call
      if rsvpEmails.length > 0 then
        (⟨200, startedBody h.workflowId⟩, [call])
      else
        match h.returnValue with
        | .ok values => (⟨200, resultToJson values⟩, [call])
        | .error e => (catchResponse e, [call])

/-! ## Spec-side definition: completion order

What the spec calls the "ordered-by-completion list" of RSVP replies.
Modelled from the spec's words ("RSVP replies in the result list reflect
completion (resolution) order, not the order guests were invited"), for
comparison against the orchestrator's actual output. -/

/-- Insert into a list sorted by the boolean comparator. -/
def insertLe {α : Type} (le : α → α → Bool) (x : α) : List α → List α
  | [] => [x]
  | y :: ys => if le x y then x :: y :: ys else y :: insertLe le x ys

/-- Insertion sort by a boolean comparator. -/
def sortLe {α : Type} (le : α → α → Bool) : List α → List α
  | [] => []
  | x :: xs => insertLe le x (sortLe le xs)

/-- Modelled from the spec: the guest indices `0..n-1` ordered by the
wall-clock instant their webhook resolved. -/
def completionOrderIndices (resolveTime : Nat → Nat) (n : Nat) : List Nat :=
  sortLe (fun i j => resolveTime i ≤ resolveTime j) (List.range n)

/-- Modelled from the spec: the RSVP replies listed in completion
(resolution) order. -/
def repliesInCompletionOrder (env : WorkflowEnv) (n : Nat) :
    List RsvpReply :=
  (completionOrderIndices env.resolveTime n).map
    (fun i => parseRsvpReply (env.webhookResult i))

/-! ## Concrete runs used in counterexamples and witnesses -/

/-- A fully successful environment with one guest whose callback carries
the honest query string `?reply=yes&email=alice@x.com` (the link
`requestRsvp` put in the invitation). -/
def happyEnv : WorkflowEnv :=
  { generatePrompts := fun _ => .ok ("text prompt", "image prompt")
  , generateImage := fun _ => .ok "data:image/png;base64,QUJD"
  , generateMessage := fun _ => .ok "Happy birthday!"
  , requestRsvp := fun email _ => .ok ⟨email, true⟩
  , webhookUrl := fun _ => "https://example.com/hook"
  , webhookResult := fun _ => ⟨[("reply", "yes"), ("email", "alice@x.com")]⟩
  , resolveTime := fun _ => 7
  , sendRecipientEmail := fun _ => .ok () }

/-- `happyEnv`, except that the single guest's wait is resolved by a
callback whose `email` query parameter was replaced by an attacker. -/
def attackEnv : WorkflowEnv :=
  { happyEnv with
    webhookResult := fun _ => ⟨[("reply", "yes"), ("email", "mallory@evil.com")]⟩ }

/-- A run input with one guest, `alice@x.com`. -/
def oneGuestInput : BirthdayCardInput :=
  ⟨"a beach at sunset", "bob@x.com", ["alice@x.com"], none⟩

/-- `happyEnv`, except that the single guest's wait is resolved by a
callback whose query string carries no `email` parameter at all (e.g. a
truncated or hand-typed link): the orchestrator then records the
placeholder `unknown`. -/
def noEmailEnv : WorkflowEnv :=
  { happyEnv with webhookResult := fun _ => ⟨[("reply", "yes")]⟩ }

/-- A successful environment with two guests whose callbacks are honest
and where guest 1's webhook resolved *before* guest 0's
(`resolveTime 0 = 5`, `resolveTime 1 = 3`). -/
def twoGuestEnv : WorkflowEnv :=
  { generatePrompts := fun _ => .ok ("text prompt", "image prompt")
  , generateImage := fun _ => .ok "data:image/png;base64,QUJD"
  , generateMessage := fun _ => .ok "Happy birthday!"
  , requestRsvp := fun email _ => .ok ⟨email, true⟩
  , webhookUrl := fun i => if i = 0 then "u0" else "u1"
  , webhookResult := fun i =>
      if i = 0 then ⟨[("reply", "yes"), ("email", "a@x.com")]⟩
      else ⟨[("reply", "no"), ("email", "b@x.com")]⟩
  , resolveTime := fun i => if i = 0 then 5 else 3
  , sendRecipientEmail := fun _ => .ok () }

/-- A run input with two guests. -/
def twoGuestInput : BirthdayCardInput :=
  ⟨"a beach at sunset", "bob@x.com", ["a@x.com", "b@x.com"], none⟩

/-- The terminal result of `twoGuestEnv` / `twoGuestInput`. -/
def twoGuestResult : WorkflowResult :=
  ⟨"data:image/png;base64,QUJD", "Happy birthday!",
   [⟨"a@x.com", "yes"⟩, ⟨"b@x.com", "no"⟩]⟩

/-- `happyEnv`, except that `generateImage` rejects permanently (retries
exhausted) while `generateMessage` still succeeds. -/
def failImageEnv : WorkflowEnv :=
  { happyEnv with
    generateImage := fun _ => .error (.error "image quota exhausted") }

/-- A runtime whose run is still pending: awaiting its `returnValue`
would block / fail. -/
def rtPending : WorkflowRuntime :=
  fun _ => ⟨"wf_123", .error (.error "pending")⟩

/-- A runtime whose run completed with an empty-guest result. -/
def rtDone : WorkflowRuntime :=
  fun _ => ⟨"wf_123", .ok ⟨"img", "txt", []⟩⟩

/-- A runtime whose run failed with a `FatalError`. -/
def rtFatal : WorkflowRuntime :=
  fun _ => ⟨"wf_124", .error (.fatalError "bad input")⟩

/-- A valid request body with one RSVP guest. -/
def asyncBody : RequestBody :=
  ⟨some (.str "a beach at sunset"), some (.str "bob@x.com"),
   some ["a@x.com"], none⟩

/-- A valid request body with no RSVP guests. -/
def syncBody : RequestBody :=
  ⟨some (.str "a beach at sunset"), some (.str "bob@x.com"), none, none⟩

/-- A request body with `prompt` missing. -/
def noPromptBody : RequestBody :=
  ⟨none, some (.str "bob@x.com"), none, none⟩

/-- A request body with a valid `prompt` but `recipientEmail` missing. -/
def noRecipientBody : RequestBody :=
  ⟨some (.str "hi"), none, none, none⟩

/-- A run input whose `eventDate` (timestamp 100) lies far beyond the
demo sleep. -/
def demoEventInput : BirthdayCardInput :=
  ⟨"a beach at sunset", "bob@x.com", [], some 100⟩

/-- A realisable timeline for `demoEventInput`: start at 0, no RSVP
phase, timer resolves at 10, notification at 10. -/
def demoTimeline : Timeline := ⟨0, 0, 10, 10⟩

/-! ## Helper lemmas -/

/-- When the RSVP phase succeeds, its value is the fan-in list: guest
`i`'s parsed callback at position `i`. -/
theorem rsvpPhase_ok (env : WorkflowEnv) (rsvpEmails : List String)
    (replies : List RsvpReply) (h : rsvpPhase env rsvpEmails = .ok replies) :
    replies = collectRsvpReplies env rsvpEmails.length := by
  unfold rsvpPhase at h
  by_cases hn : rsvpEmails.length > 0
  · rw [if_pos hn] at h
    cases hr : requestAllRsvps env rsvpEmails with
    | error e => rw [hr] at h; cases h
    | ok receipts => rw [hr] at h; exact (Except.ok.injEq _ _).mp h.symm
  · rw [if_neg hn] at h
    have hz : rsvpEmails.length = 0 := Nat.eq_zero_of_not_pos hn
    have hrep : replies = [] := (Except.ok.injEq _ _).mp h.symm
    rw [hrep, hz]
    rfl

/-- Any successful run's reply list is the fan-in list. -/
theorem generateBirthdayCard_ok_replies (env : WorkflowEnv)
    (input : BirthdayCardInput) (r : WorkflowResult)
    (h : (generateBirthdayCard env input).result = .ok r) :
    r.rsvpReplies = collectRsvpReplies env input.rsvpEmails.length := by
  unfold generateBirthdayCard at h
  cases hp : env.generatePrompts input.prompt with
  | error e => rw [hp] at h; cases h
  | ok tpip =>
    obtain ⟨tp0, ip0⟩ := tpip
    rw [hp] at h
    simp only [] at h
    cases hgen : promiseAll2 (env.generateImage ip0)
        (env.generateMessage tp0) with
    | error e => rw [hgen] at h; cases h
    | ok it =>
      obtain ⟨image0, text0⟩ := it
      rw [hgen] at h
      simp only [] at h
      cases hrs : rsvpPhase env input.rsvpEmails with
      | error e => rw [hrs] at h; cases h
      | ok replies =>
        rw [hrs] at h
        simp only [] at h
        cases hsend : env.sendRecipientEmail
            ⟨input.recipientEmail, image0, text0, replies⟩ with
        | error e => rw [hsend] at h; cases h
        | ok u =>
          rw [hsend] at h
          simp only [] at h
          have hr : r = ⟨image0, text0, replies⟩ :=
            ((Except.ok.injEq _ _).mp h).symm
          rw [hr]
          exact rsvpPhase_ok env input.rsvpEmails replies hrs

/-! ## Claims -/

/-- C9 counterexample: a malformed (non-`yes`/`no`) but present `reply`
query value is passed through verbatim, not replaced by `no-response`:
the callback `?reply=maybe&email=a@x.com` yields the reply `maybe`,
which lies outside `{yes, no, no-response}`. -/
theorem c9_malformed_reply_passes_through :
    (parseRsvpReply ⟨[("reply", "maybe"), ("email", "a@x.com")]⟩).reply
      = "maybe" ∧
    ¬ ("maybe" = "yes" ∨ "maybe" = "no" ∨ "maybe" = "no-response") := by
  decide

/-- C9 (amended): the extracted reply is the raw `reply` query value,
with `no-response` substituted exactly when the parameter is absent or
empty (JS `||` defaulting); values outside `{yes, no}` are not
normalised. -/
theorem c9_reply_extraction (params : List (String × String)) (v : String) :
    (getParam params "reply" = none →
      (parseRsvpReply ⟨params⟩).reply = "no-response") ∧
    (getParam params "reply" = some "" →
      (parseRsvpReply ⟨params⟩).reply = "no-response") ∧
    (getParam params "reply" = some v → v ≠ "" →
      (parseRsvpReply ⟨params⟩).reply = v) := by
  refine ⟨fun h => ?_, fun h => ?_, fun h hv => ?_⟩
  · simp [parseRsvpReply, jsOr, h]
  · simp [parseRsvpReply, jsOr, h]
  · simp [parseRsvpReply, jsOr, h, hv]

/-- C9 witness: the amended extraction at concrete callbacks. -/
theorem c9_reply_extraction_witness :
    (parseRsvpReply ⟨[("reply", "maybe")]⟩).reply = "maybe" ∧
    (parseRsvpReply ⟨[("email", "a@x.com")]⟩).reply = "no-response" := by
  constructor
  · exact (c9_reply_extraction [("reply", "maybe")] "maybe").2.2 rfl
      (by decide)
  · exact (c9_reply_extraction [("email", "a@x.com")] "maybe").1 rfl

/-- C3: the guest email recorded in an `RsvpReply` is read from the
callback URL's attacker-controllable `email` query parameter, not from
the email the orchestrator passed to `requestRsvp` when binding the
wait.  Two resolutions of guest `alice@x.com`'s wait that differ only in
that parameter produce different terminal `rsvpReplies`. -/
theorem c3_email_not_bound_to_rsvp_input :
    (generateBirthdayCard happyEnv oneGuestInput).result =
      .ok ⟨"data:image/png;base64,QUJD", "Happy birthday!",
           [⟨"alice@x.com", "yes"⟩]⟩ ∧
    (generateBirthdayCard attackEnv oneGuestInput).result =
      .ok ⟨"data:image/png;base64,QUJD", "Happy birthday!",
           [⟨"mallory@evil.com", "yes"⟩]⟩ ∧
    (generateBirthdayCard happyEnv oneGuestInput).result ≠
      (generateBirthdayCard attackEnv oneGuestInput).result := by
  refine ⟨by decide, by decide, by decide⟩

/-- C4 counterexample: with `eventDate` at timestamp 100, the timeline
that starts at 0, sleeps the hard-coded 10 demo seconds and notifies at
instant 10 is realisable, and it invokes `sendRecipientEmail` strictly
before the configured deadline. -/
theorem c4_notify_before_event_date :
    validTimeline demoEventInput demoTimeline ∧
    demoEventInput.eventDate = some 100 ∧
    demoTimeline.notifyAt < 100 := by
  decide

/-- C4 (amended): the duration the workflow passes to `sleep` is the
constant `'10 seconds'` regardless of `eventDate`, and on every
realisable timeline `sendRecipientEmail` is not invoked until at least
10 seconds after the sleep begins. -/
theorem c4_sleep_gating (input : BirthdayCardInput) (tl : Timeline)
    (h : validTimeline input tl) :
    sleepDurationArg input.eventDate = "10 seconds" ∧
    tl.rsvpDoneAt + 10 ≤ tl.notifyAt := by
  obtain ⟨h1, h2, h3⟩ := h
  refine ⟨rfl, ?_⟩
  have hd : durationSeconds (sleepDurationArg input.eventDate) = 10 := rfl
  rw [hd] at h2
  omega

/-- C4 witness: the amended gating at the concrete demo timeline. -/
theorem c4_sleep_gating_witness :
    sleepDurationArg demoEventInput.eventDate = "10 seconds" ∧
    demoTimeline.rsvpDoneAt + 10 ≤ demoTimeline.notifyAt :=
  c4_sleep_gating demoEventInput demoTimeline (by decide)

/-- C7: when `generateImage` rejects permanently (after the prompt split
succeeded), the run terminates with that error and `sendRecipientEmail`
is never invoked — for every behaviour of `generateMessage`, including
success. -/
theorem c7_image_failure_aborts_run (env : WorkflowEnv)
    (input : BirthdayCardInput) (tp ip : String) (e : JsError)
    (hp : env.generatePrompts input.prompt = .ok (tp, ip))
    (himg : env.generateImage ip = .error e) :
    (generateBirthdayCard env input).result = .error e ∧
    (generateBirthdayCard env input).notifyInvoked = false := by
  unfold generateBirthdayCard
  rw [hp]
  simp only []
  have hall : promiseAll2 (env.generateImage ip) (env.generateMessage tp) =
      .error e := by
    rw [himg]; rfl
  rw [hall]
  exact ⟨rfl, rfl⟩

/-- C7 witness: the failing-image environment at the one-guest input;
`generateMessage` succeeds there, yet the run fails and no recipient
email is sent. -/
theorem c7_image_failure_aborts_run_witness :
    (generateBirthdayCard failImageEnv oneGuestInput).result =
      .error (.error "image quota exhausted") ∧
    (generateBirthdayCard failImageEnv oneGuestInput).notifyInvoked
      = false :=
  c7_image_failure_aborts_run failImageEnv oneGuestInput
    "text prompt" "image prompt" (.error "image quota exhausted") rfl rfl

/-- C2 counterexample: with two guests whose webhooks resolved in the
order `guest 1, guest 0` (`resolveTime 0 = 5 > 3 = resolveTime 1`), the
terminal `rsvpReplies` list is `[guest 0's reply, guest 1's reply]` —
the invitation (input) order — and differs from the
ordered-by-completion list the spec describes. -/
theorem c2_not_completion_order :
    (generateBirthdayCard twoGuestEnv twoGuestInput).result =
      .ok twoGuestResult ∧
    repliesInCompletionOrder twoGuestEnv
        twoGuestInput.rsvpEmails.length =
      [⟨"b@x.com", "no"⟩, ⟨"a@x.com", "yes"⟩] ∧
    twoGuestResult.rsvpReplies ≠
      [⟨"b@x.com", "no"⟩, ⟨"a@x.com", "yes"⟩] := by
  refine ⟨by decide, by decide, by decide⟩

/-- C2 (amended): the terminal `rsvpReplies` list is ordered by the
guests' positions in the `rsvpEmails` input (entry `i` is the parsed
resolution of guest `i`'s webhook — `Promise.all` preserves input index
order), and the outcome is entirely independent of the instants at which
the webhooks resolved. -/
theorem c2_replies_in_invite_order (env : WorkflowEnv)
    (input : BirthdayCardInput) (r : WorkflowResult)
    (h : (generateBirthdayCard env input).result = .ok r) :
    r.rsvpReplies = (List.range input.rsvpEmails.length).map
      (fun i => parseRsvpReply (env.webhookResult i)) ∧
    ∀ f : Nat → Nat,
      generateBirthdayCard { env with resolveTime := f } input =
        generateBirthdayCard env input := by
  refine ⟨generateBirthdayCard_ok_replies env input r h, fun f => ?_⟩
  cases env
  rfl

/-- C2 witness: the amended order at the concrete two-guest run. -/
theorem c2_replies_in_invite_order_witness :
    twoGuestResult.rsvpReplies =
      (List.range twoGuestInput.rsvpEmails.length).map
        (fun i => parseRsvpReply (twoGuestEnv.webhookResult i)) :=
  (c2_replies_in_invite_order twoGuestEnv twoGuestInput twoGuestResult
    (by decide)).1

/-- C6 counterexample: a terminal run need not contain an entry per
guest email from the input — with the one guest `alice@x.com`, a
resolution whose callback carries no `email` query parameter reaches
the terminal result with `rsvpReplies = [{email: unknown, reply: yes}]`
(length 1, but no entry for `alice@x.com`): the recorded email comes
from the callback payload, not from the input. -/
theorem c6_entry_per_guest_fails :
    (generateBirthdayCard noEmailEnv oneGuestInput).result =
      .ok ⟨"data:image/png;base64,QUJD", "Happy birthday!",
           [⟨"unknown", "yes"⟩]⟩ ∧
    oneGuestInput.rsvpEmails = ["alice@x.com"] ∧
    ¬ "alice@x.com" ∈
        ([(⟨"unknown", "yes"⟩ : RsvpReply)].map RsvpReply.email) := by
  refine ⟨by decide, by decide, by decide⟩

/-- C6 (amended): every successful run's `rsvpReplies` has exactly one
entry per guest position (length `N`, entry `i` produced by guest `i`'s
webhook); the recorded emails equal the input guest emails exactly under
honest resolutions — when each guest's wait is resolved through that
guest's own invitation link, whose `email` query parameter carries the
guest's address — and the outcome is independent of the order (instants)
in which the resolutions arrived. -/
theorem c6_fanout_completeness (env : WorkflowEnv)
    (input : BirthdayCardInput) (r : WorkflowResult)
    (h : (generateBirthdayCard env input).result = .ok r) :
    r.rsvpReplies.length = input.rsvpEmails.length ∧
    ((∀ i (hi : i < input.rsvpEmails.length),
        getParam (env.webhookResult i).params "email" =
          some input.rsvpEmails[i] ∧
        input.rsvpEmails[i] ≠ "") →
      r.rsvpReplies.map RsvpReply.email = input.rsvpEmails) ∧
    ∀ f : Nat → Nat,
      generateBirthdayCard { env with resolveTime := f } input =
        generateBirthdayCard env input := by
  have hrep := generateBirthdayCard_ok_replies env input r h
  refine ⟨?_, ?_, fun f => by cases env; rfl⟩
  · rw [hrep]
    simp [collectRsvpReplies]
  · intro hhonest
    rw [hrep]
    unfold collectRsvpReplies
    rw [List.map_map]
    apply List.ext_getElem
    · simp
    · intro i h1 h2
      obtain ⟨he, hne⟩ := hhonest i h2
      simp only [List.getElem_map, List.getElem_range]
      simp [parseRsvpReply, jsOr, he, hne]

/-- C6 witness: fan-out completeness at the concrete two-guest run with
honest resolutions. -/
theorem c6_fanout_completeness_witness :
    twoGuestResult.rsvpReplies.length =
      twoGuestInput.rsvpEmails.length ∧
    twoGuestResult.rsvpReplies.map RsvpReply.email =
      twoGuestInput.rsvpEmails := by
  have h := c6_fanout_completeness twoGuestEnv twoGuestInput
    twoGuestResult (by decide)
  exact ⟨h.1, h.2.1 (by decide)⟩

/-- C1 counterexample: at a valid request with one RSVP guest, the
asynchronous route variant responds 200 with `status: 'started'` but the
run identifier field is named `workflowId` — there is no `runId` field;
and the part_000 route variant never takes the started path at all (it
awaits the terminal result, here surfacing a 500). -/
theorem c1_no_runId_field :
    (POSTAsync rtPending asyncBody).fst.status = 200 ∧
    getStr (POSTAsync rtPending asyncBody).fst.body "status" =
      some "started" ∧
    hasField (POSTAsync rtPending asyncBody).fst.body "runId" = false ∧
    hasField (POSTAsync rtPending asyncBody).fst.body "workflowId"
      = true ∧
    (POSTFull rtPending asyncBody).fst.status = 500 := by
  refine ⟨by decide, by decide, by decide, by decide, by decide⟩

/-- C1 (amended): for every valid request with non-empty `rsvpEmails`,
the asynchronous route variant returns a 200 response with
`status: 'started'` whose run identifier field is named `workflowId`,
and the response is independent of the run's terminal value (only the
identifier `start` returned matters — `returnValue` is never
awaited). -/
theorem c1_async_started_response (rt rt2 : WorkflowRuntime)
    (body : RequestBody) (p r : String)
    (hp : requiredString body.prompt = some p)
    (hr : requiredString body.recipientEmail = some r)
    (hn : (body.rsvpEmails.getD []).length > 0)
    (hid : ∀ c, (rt c).workflowId = (rt2 c).workflowId) :
    (POSTAsync rt body).fst.status = 200 ∧
    getStr (POSTAsync rt body).fst.body "status" = some "started" ∧
    getStr (POSTAsync rt body).fst.body "workflowId" =
      some ((rt ⟨p, some r, body.rsvpEmails.getD [],
        body.eventDate⟩).workflowId) ∧
    hasField (POSTAsync rt body).fst.body "runId" = false ∧
    POSTAsync rt body = POSTAsync rt2 body := by
  have hred : ∀ rt0 : WorkflowRuntime, POSTAsync rt0 body =
      (⟨200, startedBody ((rt0 ⟨p, some r, body.rsvpEmails.getD [],
          body.eventDate⟩).workflowId)⟩,
       [⟨p, some r, body.rsvpEmails.getD [], body.eventDate⟩]) := by
    intro rt0
    unfold POSTAsync
    rw [hp]
    simp only []
    rw [hr]
    simp only []
    rw [if_pos hn]
  rw [hred rt, hred rt2,
    hid ⟨p, some r, body.rsvpEmails.getD [], body.eventDate⟩]
  exact ⟨rfl, rfl, rfl, rfl, rfl⟩

/-- C1 witness: the amended response shape at the concrete one-guest
request, for a pending and a completed runtime sharing the identifier
`wf_123`. -/
theorem c1_async_started_response_witness :
    (POSTAsync rtPending asyncBody).fst.status = 200 ∧
    getStr (POSTAsync rtPending asyncBody).fst.body "status" =
      some "started" ∧
    getStr (POSTAsync rtPending asyncBody).fst.body "workflowId" =
      some "wf_123" ∧
    hasField (POSTAsync rtPending asyncBody).fst.body "runId" = false ∧
    POSTAsync rtPending asyncBody = POSTAsync rtDone asyncBody :=
  c1_async_started_response rtPending rtDone asyncBody
    "a beach at sunset" "bob@x.com" rfl rfl (by decide) (fun _ => rfl)

/-- C5 counterexample: the live simplified route
(src/app/api/generate/route.ts) does not validate `recipientEmail`: a
request with a valid `prompt` and no `recipientEmail` is not rejected —
the workflow run is started (with `[prompt]` only) and the request
completes with status 200. -/
theorem c5_missing_recipient_not_rejected :
    (POSTSimple rtDone noRecipientBody).fst.status = 200 ∧
    (POSTSimple rtDone noRecipientBody).snd =
      [⟨"hi", none, [], none⟩] := by
  refine ⟨by decide, by decide⟩

/-- C5 (amended): a missing or non-string `prompt` is rejected with 400
before any run is started, in all three route variants; a missing or
non-string `recipientEmail` is likewise rejected with 400 and no run in
the full and asynchronous variants — but the simplified live route
validates only `prompt`. -/
theorem c5_validation_rejection (rt : WorkflowRuntime)
    (body : RequestBody) :
    (requiredString body.prompt = none →
      (POSTSimple rt body).fst = promptErrorResponse ∧
      (POSTSimple rt body).snd = [] ∧
      (POSTFull rt body).fst = promptErrorResponse ∧
      (POSTFull rt body).snd = [] ∧
      (POSTAsync rt body).fst = promptErrorResponse ∧
      (POSTAsync rt body).snd = []) ∧
    (requiredString body.recipientEmail = none →
      (POSTFull rt body).fst.status = 400 ∧
      (POSTFull rt body).snd = [] ∧
      (POSTAsync rt body).fst.status = 400 ∧
      (POSTAsync rt body).snd = []) ∧
    promptErrorResponse.status = 400 := by
  refine ⟨fun h => ?_, fun h => ?_, rfl⟩
  · unfold POSTSimple POSTFull POSTAsync
    rw [h]
    exact ⟨rfl, rfl, rfl, rfl, rfl, rfl⟩
  · unfold POSTFull POSTAsync
    cases hp : requiredString body.prompt with
    | none => exact ⟨rfl, rfl, rfl, rfl⟩
    | some p =>
      simp only []
      rw [h]
      exact ⟨rfl, rfl, rfl, rfl⟩

/-- C5 witness: the amended validation behaviour at concrete requests
with `prompt` (respectively `recipientEmail`) missing. -/
theorem c5_validation_rejection_witness :
    (POSTSimple rtDone noPromptBody).fst = promptErrorResponse ∧
    (POSTSimple rtDone noPromptBody).snd = [] ∧
    (POSTFull rtDone noRecipientBody).fst.status = 400 ∧
    (POSTFull rtDone noRecipientBody).snd = [] := by
  have h1 := (c5_validation_rejection rtDone noPromptBody).1 rfl
  have h2 := (c5_validation_rejection rtDone noRecipientBody).2.1 rfl
  exact ⟨h1.1, h1.2.1, h2.1, h2.2.1⟩

/-- C8 counterexample: a synchronous-path validation failure (missing
`prompt`) produces a 400 body with an `error` field but *no* `fatal`
field, in both the simplified and the full route. -/
theorem c8_validation_error_lacks_fatal :
    (POSTSimple rtDone noPromptBody).fst.status = 400 ∧
    hasField (POSTSimple rtDone noPromptBody).fst.body "error" = true ∧
    hasField (POSTSimple rtDone noPromptBody).fst.body "fatal"
      = false ∧
    (POSTFull rtDone noPromptBody).fst.status = 400 ∧
    hasField (POSTFull rtDone noPromptBody).fst.body "fatal"
      = false := by
  refine ⟨by decide, by decide, by decide, by decide, by decide⟩

/-- C8 (amended): on the synchronous path, failures thrown by the
awaited run surface through the catch block as one `{error, fatal}`
object — 400 with `fatal: true` for a `FatalError`, 500 with
`fatal: false` for any other error — while validation failures return
400 with an `{error}` body that has no `fatal` field. -/
theorem c8_sync_failure_responses (rt : WorkflowRuntime)
    (body body2 : RequestBody) (p r : String) (e e2 : JsError)
    (hp : requiredString body.prompt = some p)
    (hr : requiredString body.recipientEmail = some r)
    (hrv : (rt ⟨p, some r, body.rsvpEmails.getD [],
      body.eventDate⟩).returnValue = .error e)
    (hsv : (rt ⟨p, none, [], none⟩).returnValue = .error e2)
    (h2 : requiredString body2.prompt = none) :
    (POSTFull rt body).fst = catchResponse e ∧
    (POSTSimple rt body).fst = catchResponse e2 ∧
    ((body.rsvpEmails.getD []).length = 0 →
      (POSTAsync rt body).fst = catchResponse e) ∧
    (∀ m, catchResponse (.fatalError m) =
      ⟨400, .obj [("error", .str m), ("fatal", .bool true)]⟩) ∧
    (∀ m, catchResponse (.error m) =
      ⟨500, .obj [("error", .str m), ("fatal", .bool false)]⟩) ∧
    (POSTFull rt body2).fst = promptErrorResponse ∧
    (POSTSimple rt body2).fst = promptErrorResponse ∧
    hasField promptErrorResponse.body "error" = true ∧
    hasField promptErrorResponse.body "fatal" = false := by
  refine ⟨?_, ?_, ?_, fun m => rfl, fun m => rfl, ?_, ?_, rfl, rfl⟩
  · unfold POSTFull
    rw [hp]
    simp only []
    rw [hr]
    simp only []
    rw [hrv]
  · unfold POSTSimple
    rw [hp]
    simp only []
    rw [hsv]
  · intro hz
    unfold POSTAsync
    rw [hp]
    simp only []
    rw [hr]
    simp only []
    rw [if_neg (by rw [hz]; exact Nat.lt_irrefl 0), hrv]
  · unfold POSTFull
    rw [h2]
  · unfold POSTSimple
    rw [h2]

/-- C8 witness: the amended failure shapes at a concrete valid request
against a runtime whose run failed with `FatalError "bad input"`, and at
a concrete request with `prompt` missing. -/
theorem c8_sync_failure_responses_witness :
    (POSTFull rtFatal syncBody).fst =
      catchResponse (.fatalError "bad input") ∧
    (POSTAsync rtFatal syncBody).fst =
      catchResponse (.fatalError "bad input") ∧
    catchResponse (.fatalError "bad input") =
      ⟨400, .obj [("error", .str "bad input"),
                  ("fatal", .bool true)]⟩ ∧
    (POSTFull rtFatal noPromptBody).fst = promptErrorResponse ∧
    hasField promptErrorResponse.body "fatal" = false := by
  have h := c8_sync_failure_responses rtFatal syncBody noPromptBody
    "a beach at sunset" "bob@x.com" (.fatalError "bad input")
    (.fatalError "bad input") rfl rfl rfl rfl rfl
  exact ⟨h.1, h.2.2.1 rfl, h.2.2.2.1 "bad input", h.2.2.2.2.2.1,
    h.2.2.2.2.2.2.2.2⟩

/-- Splitting a separator-free character list yields one chunk. -/
theorem splitCharAux_not_mem (sep : Char) (l : List Char)
    (h : sep ∉ l) :
    ∀ acc : List Char, splitCharAux sep l acc = [acc.reverse ++ l] := by
  induction l with
  | nil => intro acc; simp [splitCharAux]
  | cons c cs ih =>
    intro acc
    have hc : ¬ c = sep := fun hc => h (hc ▸ List.mem_cons_self c cs)
    have hcs : sep ∉ cs := fun hm => h (List.mem_cons_of_mem c hm)
    simp only [splitCharAux, if_neg hc, ih hcs]
    simp

/-- Splitting `l1 ++ sep :: l2` with `sep` in neither part yields
exactly the two chunks. -/
theorem splitCharAux_append_sep (sep : Char) (l1 l2 : List Char)
    (h1 : sep ∉ l1) (h2 : sep ∉ l2) :
    ∀ acc : List Char,
      splitCharAux sep (l1 ++ sep :: l2) acc =
        [acc.reverse ++ l1, l2] := by
  induction l1 with
  | nil =>
    intro acc
    simp only [List.nil_append, splitCharAux, if_pos rfl,
      splitCharAux_not_mem sep l2 h2 []]
    simp
  | cons c cs ih =>
    intro acc
    have hc : ¬ c = sep := fun hc => h1 (hc ▸ List.mem_cons_self c cs)
    have hcs : sep ∉ cs := fun hm => h1 (List.mem_cons_of_mem c hm)
    simp only [List.cons_append, splitCharAux, if_neg hc,
      List.append_eq]
    rw [ih hcs (c :: acc)]
    simp

/-- The characters of a concatenation. -/
theorem string_data_append (s t : String) :
    (s ++ t).data = s.data ++ t.data := rfl

/-- C10: every image string the `generateImageStep` step returns is the
data URI `data:<mediaType>;base64,<payload>`; when neither the media
type nor the base64 payload contains a comma (base64 and standard image
mime types never do), `sendRecipientEmail`'s `split(',')[1]` extraction
is defined and yields exactly the base64 payload. -/
theorem c10_attachment_extraction (img : GeneratedImage)
    (s b64 : String)
    (h : generateImageStep img = .ok s) (hb : img.base64 = some b64)
    (hm : ',' ∉ (jsOr img.mimeType "image/png").data)
    (hbc : ',' ∉ b64.data) :
    s = "data:" ++ jsOr img.mimeType "image/png" ++ ";base64," ++ b64 ∧
    sendRecipientEmailBase64Content s = some b64 := by
  unfold generateImageStep at h
  rw [hb] at h
  simp only [] at h
  by_cases hb0 : b64 = ""
  · rw [if_pos hb0] at h; cases h
  · rw [if_neg hb0] at h
    have hs : s =
        "data:" ++ jsOr img.mimeType "image/png" ++ ";base64," ++ b64 :=
      ((Except.ok.injEq _ _).mp h).symm
    refine ⟨hs, ?_⟩
    have hl1 : ',' ∉
        ("data:" ++ jsOr img.mimeType "image/png" ++ ";base64").data := by
      intro hmem
      rw [string_data_append, string_data_append] at hmem
      rcases List.mem_append.mp hmem with hmem | hmem
      · rcases List.mem_append.mp hmem with hmem | hmem
        · exact absurd hmem (by decide)
        · exact hm hmem
      · exact absurd hmem (by decide)
    have hdata : s.data =
        ("data:" ++ jsOr img.mimeType "image/png" ++ ";base64").data ++
          ',' :: b64.data := by
      rw [hs]
      rw [string_data_append, string_data_append, string_data_append,
        string_data_append, string_data_append]
      have hsb : (";base64,").data = (";base64").data ++ [','] := by
        decide
      rw [hsb]
      simp [List.append_assoc]
    unfold sendRecipientEmailBase64Content jsSplit
    rw [hdata, splitCharAux_append_sep ',' _ _ hl1 hbc []]
    simp

/-- C10 witness: the extraction at a concrete generated image. -/
theorem c10_attachment_extraction_witness :
    "data:image/png;base64,QUJD" =
      "data:" ++ jsOr (some "image/png") "image/png" ++ ";base64," ++
        "QUJD" ∧
    sendRecipientEmailBase64Content "data:image/png;base64,QUJD" =
      some "QUJD" :=
  c10_attachment_extraction ⟨some "QUJD", some "image/png"⟩
    "data:image/png;base64,QUJD" "QUJD" (by decide) rfl (by decide)
    (by decide)

end BirthdayCard
